import Mathlib

/-!
Shallow embedding of the NNLab compiler core (`src/models.py`) and proofs
about it.  The Python module stores layer templates and network definitions
as Django models whose structured fields (`parameters`, `layers`, `graph`)
hold JSON data; we embed them as Lean structures with the corresponding
structured types, keep the source's field and function names, and translate
the code of `Layer.construct` (lines 45-66), `Layer.store` (lines 82-89),
`Network.construct` (lines 126-165) and `Network._overwrite` (lines 167-178)
statement by statement.  Python exceptions become an explicit error type and
the file system becomes an explicit map passed through the write helper.
-/

namespace NNLab

/-- Failure outcomes of a compile pass.  The first five constructors model
the Python exceptions the source can actually raise: `keyError` (a dict
subscript misses, lines 55/133/150), `valueError` (the explicit raises at
lines 60 and 138 — the template-not-found check), `notImplemented`
(`Layer.store`, line 89), `unboundLocal` (line 154 reads the loop variable
`i` when neither loop ran), and `attributeError` (line 174 reads
`self.interpreter_path`, an attribute the class never defines).  The last
two constructors, `emptyGraph` and `unresolvedReference`, are the typed
compile errors named by the specification (§7); they are included so that
statements about them can be expressed — the source never produces them. -/
inductive PyError where
  | keyError
  | valueError
  | notImplemented
  | unboundLocal
  | attributeError
  | emptyGraph
  | unresolvedReference
deriving DecidableEq, Repr

/-- Global constant, models.py line 14. -/
def pytorch : String := "pytorch"

/-- Global constant, models.py line 15. -/
def pennylane : String := "pennylane"

/-- Global constant, models.py line 16. -/
def tensorflow : String := "tensorflow"

/-- Global table, models.py lines 17-19: backend identifier to import
preamble.  Only pytorch has an entry. -/
def imports : List (String × String) := [(pytorch, "import torch\nimport torch.nn as nn")]

/-- Global table, models.py lines 20-22: backend identifier to activation
name to activation callable text.  Only pytorch has an entry. -/
def activations : List (String × List (String × String)) :=
  [(pytorch, [("relu", "nn.ReLu()")])]

/-- Python `str.lower()` for the ASCII identifiers used by the module. -/
def pyLower (s : String) : String := String.mk (s.data.map Char.toLower)

/-- A layer template (Django model `Layer`, lines 24-43).  The `parameters`
CharField holds JSON mapping a backend identifier to an ordered list of
parameter entries; line 55 reads each entry's element 0, so entries are
(name, metadata) pairs.  The `store` CharField declared at line 37 is
shadowed by the method of the same name defined at line 82, so it is not a
field of the materialized model and is omitted here. -/
structure Layer where
  name : String
  parameters : List (String × List (String × String))
  pytorch : Option String
  pennylane : Option String
  tensorflow : Option String
deriving DecidableEq, Repr

/-- Python f-string rendering of an optional CharField: `None` renders as
the four characters `None`. -/
def fstrOpt : Option String → String
  | none => "None"
  | some s => s

/-- Lines 57-60 of models.py, the mode dispatch of `Layer.construct`,
translated exactly: the second branch tests `mode == tensorflow` but reads
`self.pennylane`, the third branch repeats the test `mode == tensorflow`
(so it is dead code) and every other mode — including `pennylane` — falls
through to `raise ValueError`. -/
def modeCallable (self : Layer) (mode : String) : Except PyError String :=
  if mode == pytorch then Except.ok (fstrOpt self.pytorch ++ "(")
  else if mode == tensorflow then Except.ok (fstrOpt self.pennylane ++ "(")
  else if mode == tensorflow then Except.ok (fstrOpt self.tensorflow ++ "(")
  else Except.error PyError.valueError

/-- `Layer.construct` (models.py lines 45-66).  Line 55 subscripts the
parsed `parameters` JSON by `mode` (KeyError when absent) and takes element
0 of each entry; lines 57-60 pick the callable; lines 62-64 append
`key=value,` for each input parameter whose key is whitelisted, in input
iteration order; line 66 closes the parenthesis. -/
def Layer.construct (self : Layer) (params : List (String × String)) (mode : String) :
    Except PyError String :=
  match List.lookup mode self.parameters with
  | none => Except.error PyError.keyError
  | some entries =>
    match modeCallable self mode with
    | Except.error e => Except.error e
    | Except.ok callable =>
      Except.ok
        (params.foldl
          (fun layer pv =>
            if (entries.map fun en => en.1).contains pv.1 then
              layer ++ pv.1 ++ "=" ++ pv.2 ++ ","
            else layer)
          callable ++ ")")

/-- `Layer.store` (models.py lines 82-89): the store hook unconditionally
raises `NotImplementedError`. -/
def Layer.store (_ : Layer) : Except PyError String :=
  Except.error PyError.notImplemented

/-- Rendering of an ordered list of key/value parameters as the source's
`k=v,` fragments; used to state what `Layer.construct` emits. -/
def renderList : List (String × String) → String
  | [] => ""
  | pv :: rest => pv.1 ++ "=" ++ pv.2 ++ "," ++ renderList rest

/-- One input edge of a graph entry (models.py lines 146-151): `none` is the
Python `None` sentinel meaning the network's external input; otherwise the
edge is a pair of the source instance index and an optional activation name
(spec §3: `(sourceInstanceIndex, optionalActivationName)`).  The code
interpolates the first component directly into the generated text. -/
abbrev Edge := Option (Nat × Option String)

/-- A network definition (Django model `Network`, lines 100-124).  The
`layers` and `graph` CharFields hold the JSON structures the compile loop
iterates: one `(layerTemplateRef, parameterValues)` pair per instance and
one edge list per instance. -/
structure Network where
  name : String
  type : String
  id : String
  graph : List (List Edge)
  layers : List (String × List (String × String))
  loss : Option String
  weights : Option String

/-- The read-only layer template registry (`Layer.objects`), an external
collaborator: lookup of a template by the reference stored in an instance. -/
abbrev Registry := String → Option Layer

/-- The persisted-artifact store: path to file content. -/
abbrev FS := String → Option String

/-- Text interpolated for `{id}` in the class attribute at line 123: the
f-string is evaluated once, at class definition time, when `id` is the
`UUIDField` descriptor object itself, not any instance's id value. -/
def uuidFieldText : String := "<django.db.models.fields.UUIDField>"

/-- `Network.network_path` (models.py line 123).  It is a class attribute:
one fixed string shared by every instance (the directory prefix
`Path(__file__).parent.absolute()` is deployment-dependent; we render it as
a fixed literal, which preserves the only property the development uses,
instance-independence). -/
def Network.network_path (_ : Network) : String :=
  "nlab/networks/" ++ uuidFieldText ++ ".py"

/-- The edge loop of the forward emitter (models.py lines 144-151), one
step per edge: an external edge appends `input,` to the argument list; an
internal edge with an activation first appends the destructive rebinding
statement `\n\t\t<src> = <activation syntax>(<src>)` to the prefix text
(KeyError when the backend or the activation name is missing from the
`activations` table, line 150); every internal edge then appends `<src>,`
to the argument list, interpolating the raw source index. -/
def edgeStep (backend : String) (acc : String × String) (e : Edge) :
    Except PyError (String × String) :=
  match e with
  | none => Except.ok (acc.1 ++ "input,", acc.2)
  | some (src, actOpt) =>
    match actOpt with
    | none => Except.ok (acc.1 ++ toString src ++ ",", acc.2)
    | some act =>
      match List.lookup backend activations with
      | none => Except.error PyError.keyError
      | some table =>
        match List.lookup (pyLower act) table with
        | none => Except.error PyError.keyError
        | some syn =>
          Except.ok (acc.1 ++ toString src ++ ",",
            acc.2 ++ "\n\t\t" ++ toString src ++ " = " ++ syn ++ "(" ++ toString src ++ ")")

/-- Folding `edgeStep` over one instance's edge list, accumulating the
argument list `in_` and the activation prefix `out` of lines 144-151. -/
def edgeFold (backend : String) (acc : String × String) :
    List Edge → Except PyError (String × String)
  | [] => Except.ok acc
  | e :: rest =>
    match edgeStep backend acc e with
    | Except.error err => Except.error err
    | Except.ok acc' => edgeFold backend acc' rest

/-- The text appended to `forward` for instance `i` (models.py line 152):
the activation rebindings, then the execution statement
`out_i = self.layer_i(<args>)`, then the store call. -/
def instanceBlock (backend : String) (i : Nat) (inputs : List Edge) :
    Except PyError String :=
  match edgeFold backend ("", "") inputs with
  | Except.error err => Except.error err
  | Except.ok acc =>
    Except.ok (acc.2 ++ "\n\t\tout_" ++ toString i ++ " = self.layer_" ++ toString i ++
      "(" ++ acc.1 ++ ")" ++ "\n\t\tself.layer_" ++ toString i ++ "_store(out_" ++
      toString i ++ ")")

/-- The graph loop of models.py lines 143-152, threading the Python loop
variable `i` (arguments: next index, current value of `i`, remaining graph
entries); it returns the concatenated per-instance text together with the
value `i` holds after the loop. -/
def forwardLoop (backend : String) : Nat → Option Nat → List (List Edge) →
    Except PyError (String × Option Nat)
  | _, i, [] => Except.ok ("", i)
  | k, _, inputs :: rest =>
    match instanceBlock backend k inputs with
    | Except.error err => Except.error err
    | Except.ok blk =>
      match forwardLoop backend (k + 1) (some k) rest with
      | Except.error err => Except.error err
      | Except.ok (restS, iF) => Except.ok (blk ++ restS, iF)

/-- The full forward block (models.py lines 142-154): the `def forward`
header, the graph loop, and the terminal `return out_{i}` statement, which
reads the leaked loop variable `i` — when no loop iteration ever assigned
`i` (both `self.layers` and `self.graph` empty) the read raises
`UnboundLocalError`. -/
def forwardBlock (backend : String) (graph : List (List Edge)) (i0 : Option Nat) :
    Except PyError String :=
  match forwardLoop backend 0 i0 graph with
  | Except.error err => Except.error err
  | Except.ok (_, none) => Except.error PyError.unboundLocal
  | Except.ok (s, some k) =>
    Except.ok ("\n\tdef forward(self, input):" ++ s ++ "\n\n\treturn out_" ++ toString k)

/-- The declaration loop of models.py lines 135-139, threading the loop
variable `i` like `forwardLoop`.  Per instance: resolve the template in the
registry (Django's `Layer.objects.get` with a non-matching template is
modelled as the lookup miss that line 138 turns into `ValueError`; note the
source queries by a `type` key although the model's field is `name`), then
build the declaration statement — the f-string at line 139 evaluates
`layer.construct(...)` first and `layer.store()` second, and the latter
always raises `NotImplementedError`. -/
def declLoop (registry : Registry) (mode : String) : Nat → Option Nat →
    List (String × List (String × String)) → Except PyError (String × Option Nat)
  | _, i, [] => Except.ok ("", i)
  | k, _, (ltype, params) :: rest =>
    match registry ltype with
    | none => Except.error PyError.valueError
    | some layer =>
      match Layer.construct layer params mode with
      | Except.error err => Except.error err
      | Except.ok decl =>
        match Layer.store layer with
        | Except.error err => Except.error err
        | Except.ok st =>
          match declLoop registry mode (k + 1) (some k) rest with
          | Except.error err => Except.error err
          | Except.ok (restS, iF) =>
            Except.ok ("\n\t\tself.layer_" ++ toString k ++ " = " ++ decl ++
              "\n\t\tself.layer_" ++ toString k ++ "_store = " ++ st ++ restS, iF)

/-- The in-memory text assembly of `Network.construct` (models.py lines
133-163): the import preamble looked up by the lowered backend type
(KeyError when absent, line 133), the class header, the `__init__` block
from the declaration loop, the forward block (receiving the loop variable
`i` leaked by the declaration loop), and the two placeholder sections. -/
def Network.generate (self : Network) (registry : Registry) : Except PyError String :=
  match List.lookup (pyLower self.type) imports with
  | none => Except.error PyError.keyError
  | some imp =>
    match declLoop registry (pyLower self.type) 0 none self.layers with
    | Except.error err => Except.error err
    | Except.ok (decls, i0) =>
      match forwardBlock (pyLower self.type) self.graph i0 with
      | Except.error err => Except.error err
      | Except.ok fwd =>
        Except.ok (imp ++ "\n\nclass " ++ self.name ++ "(nn.Module):" ++
          "\n\tdef __init__(self):\n\n\tsuper().__init__()" ++ decls ++ fwd ++
          "\n\n\ndef train():" ++ "\n\n\ndef test():")

/-- `Network._overwrite` (models.py lines 167-178).  The body opens
`self.interpreter_path` — an attribute never defined on the class (line 123
defines `network_path`) — so evaluating the argument of `open` raises
`AttributeError` before any file handle is created: the store is returned
untouched. -/
def Network.overwriteArtifact (_ : Network) (_ : String) (fs : FS) :
    Except PyError Unit × FS :=
  (Except.error PyError.attributeError, fs)

/-- `Network.construct` (models.py lines 126-165): assemble the program
text in memory, then hand it to `_overwrite`; any exception raised during
generation propagates with the store untouched. -/
def Network.construct (self : Network) (registry : Registry) (fs : FS) :
    Except PyError Unit × FS :=
  match Network.generate self registry with
  | Except.error err => (Except.error err, fs)
  | Except.ok code => Network.overwriteArtifact self code fs

/-! Concrete fixtures used by witnesses, counterexamples and failing-input
evaluations. -/

/-- A `Dense` template supporting pytorch with whitelist `["units"]`
(spec §8 scenario 1). -/
def denseLayer : Layer :=
  { name := "dense"
    parameters := [("pytorch", [("units", "int")])]
    pytorch := some "nn.Linear"
    pennylane := none
    tensorflow := none }

/-- A template whose tensorflow and pennylane callables differ, to observe
the mode dispatch of lines 57-60. -/
def tfLayer : Layer :=
  { name := "dense2"
    parameters := [("tensorflow", [("units", "int")]), ("pennylane", [("units", "int")])]
    pytorch := none
    pennylane := some "qml.qnn.TorchLayer"
    tensorflow := some "tf.keras.layers.Dense" }

/-- A registry holding exactly the `dense` template. -/
def regDense : Registry := fun n => if n == "dense" then some denseLayer else none

/-- An empty artifact store. -/
def fs0 : FS := fun _ => none

/-- An artifact store with one pre-existing file. -/
def fsPre : FS := fun p => if p == "old.py" then some "old program text" else none

/-- A pytorch network with zero instances. -/
def emptyNet : Network :=
  { name := "empty", type := "pytorch", id := "a", graph := [], layers := [],
    loss := none, weights := none }

/-- A pytorch network whose single instance has a self-loop edge (source
index 0 at position 0). -/
def selfLoopNet : Network :=
  { name := "loopy", type := "pytorch", id := "b",
    graph := [[some (0, none)]],
    layers := [("dense", [("units", "10")])],
    loss := none, weights := none }

/-- A pytorch network whose first instance references a template absent
from `regDense` while its second instance's lookup would succeed. -/
def badFirstNet : Network :=
  { name := "badfirst", type := "pytorch", id := "c",
    graph := [[none], [some (0, none)]],
    layers := [("conv", []), ("dense", [("units", "10")])],
    loss := none, weights := none }

/-- The spec §8 scenario-2 graph: instance 0 reads the external input,
instance 1 reads instance 0 through a relu activation. -/
def graph2 : List (List Edge) := [[none], [some (0, some "relu")]]

/-! Helper lemmas shared by the claim theorems. -/

/-- The parameter loop of `Layer.construct` (lines 62-64) appends exactly
the rendered whitelisted parameters, in input order, after its initial
accumulator. -/
theorem foldl_render (possible : List String) (params : List (String × String)) :
    ∀ init : String,
      params.foldl
        (fun layer pv =>
          if possible.contains pv.1 then layer ++ pv.1 ++ "=" ++ pv.2 ++ "," else layer)
        init =
      init ++ renderList (params.filter fun pv => possible.contains pv.1) := by
  induction params with
  | nil => intro init; simp [renderList]
  | cons pv rest ih =>
    intro init
    cases h : possible.contains pv.1 with
    | true =>
      rw [List.foldl_cons, if_pos h, ih,
        @List.filter_cons_of_pos _ (fun pv : String × String => possible.contains pv.1) pv rest h]
      simp only [renderList]
      simp [String.append_assoc]
    | false =>
      rw [List.foldl_cons, if_neg (by simpa using h), ih,
        @List.filter_cons_of_neg _ (fun pv : String × String => possible.contains pv.1) pv rest
          (by simpa using h)]

/-- After a non-empty graph loop, the leaked Python loop variable `i`
holds the index of the last graph entry. -/
theorem forwardLoop_last_idx (backend : String) :
    ∀ (g : List (List Edge)) (k : Nat) (i0 : Option Nat) (s : String) (iF : Option Nat),
      g ≠ [] → forwardLoop backend k i0 g = Except.ok (s, iF) →
      iF = some (k + g.length - 1) := by
  intro g
  induction g with
  | nil => intro k i0 s iF hne _; exact absurd rfl hne
  | cons inputs rest ih =>
    intro k i0 s iF _ h
    unfold forwardLoop at h
    cases hb : instanceBlock backend k inputs with
    | error e => rw [hb] at h; exact Except.noConfusion h
    | ok blk =>
      rw [hb] at h
      cases hr : forwardLoop backend (k + 1) (some k) rest with
      | error e => rw [hr] at h; exact Except.noConfusion h
      | ok pr =>
        obtain ⟨restS, iF'⟩ := pr
        rw [hr] at h
        injection h with h'
        have hiF : iF' = iF := congrArg Prod.snd h'
        cases rest with
        | nil =>
          have : iF' = some k := by
            have h0 : forwardLoop backend (k + 1) (some k) ([] : List (List Edge)) =
                Except.ok ("", some k) := rfl
            rw [h0] at hr
            exact (congrArg Prod.snd (Except.ok.inj hr)).symm
          rw [← hiF, this]
          simp
        | cons b t =>
          have := ih (k + 1) (some k) restS iF' (by simp) hr
          rw [← hiF, this]
          congr 1
          simp only [List.length_cons]
          omega

/-- `Network.construct` never modifies the artifact store: generation
failures return it unchanged, and the write helper itself faults on the
undefined `interpreter_path` attribute before opening a handle. -/
theorem construct_snd_eq (net : Network) (reg : Registry) (fs : FS) :
    (Network.construct net reg fs).2 = fs := by
  unfold Network.construct
  cases Network.generate net reg with
  | error e => rfl
  | ok code => rfl

/-- The declaration loop faults on every non-empty instance list: either
the registry lookup misses (the ValueError of line 138), or the parameter
binder raises, or — when both succeed — the store hook's
`NotImplementedError` is raised at line 139. -/
theorem declLoop_cons_error (reg : Registry) (mode : String) (k : Nat) (i0 : Option Nat)
    (lt : String) (params : List (String × String))
    (rest : List (String × List (String × String))) :
    ∃ e, declLoop reg mode k i0 ((lt, params) :: rest) = Except.error e := by
  cases hr : reg lt with
  | none => exact ⟨PyError.valueError, by simp [declLoop, hr]⟩
  | some layer =>
    cases hc : Layer.construct layer params mode with
    | error e => exact ⟨e, by simp [declLoop, hr, hc]⟩
    | ok d => exact ⟨PyError.notImplemented, by simp [declLoop, hr, hc, Layer.store]⟩

/-! Claim theorems. -/

/-- Claim C1: whenever `Layer.construct` emits a declaration expression for
a template, backend mode and parameter mapping, the expression is the
backend callable followed by exactly the `key=value,` fragments of the
input parameters whose keys occur in the template's parameter schema for
that mode — the keys present in both the input mapping and the schema, in
input order, and no others; parameters absent from the schema are filtered
out silently instead of raising an error. -/
theorem c1_whitelist_filtering (l : Layer) (params : List (String × String))
    (mode s : String) (h : Layer.construct l params mode = Except.ok s) :
    ∃ callable entries,
      modeCallable l mode = Except.ok callable ∧
      List.lookup mode l.parameters = some entries ∧
      s = callable ++
        renderList (params.filter fun pv => (entries.map fun en => en.1).contains pv.1) ++
        ")" := by
  unfold Layer.construct at h
  cases hl : List.lookup mode l.parameters with
  | none => rw [hl] at h; exact Except.noConfusion h
  | some entries =>
    rw [hl] at h
    cases hc : modeCallable l mode with
    | error e => rw [hc] at h; exact Except.noConfusion h
    | ok callable =>
      rw [hc] at h
      injection h with hs
      exact ⟨callable, entries, rfl, rfl,
        by rw [← hs, foldl_render (entries.map fun en => en.1) params callable]⟩

/-- Witness for C1 at the spec's scenario 1: template `Dense` with pytorch
whitelist `["units"]` and over-specified input `{units: 10, bias: true}`
emits `nn.Linear(units=10,)` — `units` kept, `bias` silently dropped. -/
theorem c1_witness :
    ∃ callable entries,
      modeCallable denseLayer "pytorch" = Except.ok callable ∧
      List.lookup "pytorch" denseLayer.parameters = some entries ∧
      "nn.Linear(units=10,)" = callable ++
        renderList ([("units", "10"), ("bias", "true")].filter
          fun pv => (entries.map fun en => en.1).contains pv.1) ++ ")" :=
  c1_whitelist_filtering denseLayer [("units", "10"), ("bias", "true")] "pytorch"
    "nn.Linear(units=10,)" rfl

/-- Claim C2 is false of the code (refuting evidence): the mode dispatch of
models.py lines 57-60 emits the template's pennylane callable for the
`tensorflow` mode (line 58 reads `self.pennylane`), and the supported
`pennylane` mode falls through to `raise ValueError` because line 59
repeats the `tensorflow` test; the template's actual tensorflow callable,
`tf.keras.layers.Dense`, never appears. -/
theorem c2_swapped_callable :
    Layer.construct tfLayer [] "tensorflow" = Except.ok "qml.qnn.TorchLayer()" ∧
    Layer.construct tfLayer [] "pennylane" = Except.error PyError.valueError ∧
    tfLayer.tensorflow = some "tf.keras.layers.Dense" ∧
    tfLayer.pennylane = some "qml.qnn.TorchLayer" :=
  ⟨rfl, rfl, rfl, rfl⟩

/-- Claim C3: when the forward emitter succeeds on a non-empty graph, the
emitted block is the `def forward` header, then the concatenated
per-instance statements of the graph loop, then — after all of them — one
terminal `return out_{n-1}` statement naming the bound output of the last
instance in declaration order. -/
theorem c3_terminal_statement (backend : String) (graph : List (List Edge))
    (i0 : Option Nat) (body : String) (hne : graph ≠ [])
    (h : forwardBlock backend graph i0 = Except.ok body) :
    ∃ stmts,
      forwardLoop backend 0 i0 graph = Except.ok (stmts, some (graph.length - 1)) ∧
      body = "\n\tdef forward(self, input):" ++ stmts ++ "\n\n\treturn out_" ++
        toString (graph.length - 1) := by
  unfold forwardBlock at h
  cases hl : forwardLoop backend 0 i0 graph with
  | error e => rw [hl] at h; exact Except.noConfusion h
  | ok pr =>
    obtain ⟨s, iF⟩ := pr
    rw [hl] at h
    cases iF with
    | none => exact Except.noConfusion h
    | some k =>
      have hk : some k = some (0 + graph.length - 1) :=
        forwardLoop_last_idx backend graph 0 i0 s (some k) hne hl
      have hk' : k = graph.length - 1 := by
        have := Option.some.inj hk
        omega
      injection h with hbody
      refine ⟨s, ?_, ?_⟩
      · rw [hk']
      · rw [← hbody, hk']

/-- Witness for C3 at the spec's scenario 2 graph (two instances, the
second reading the first through relu): the emitted body ends with
`return out_1`. -/
theorem c3_witness :
    ∃ stmts,
      forwardLoop "pytorch" 0 none graph2 = Except.ok (stmts, some 1) ∧
      "\n\tdef forward(self, input):\n\t\tout_0 = self.layer_0(input,)\n\t\tself.layer_0_store(out_0)\n\t\t0 = nn.ReLu()(0)\n\t\tout_1 = self.layer_1(0,)\n\t\tself.layer_1_store(out_1)\n\n\treturn out_1" =
        "\n\tdef forward(self, input):" ++ stmts ++ "\n\n\treturn out_" ++ toString 1 :=
  c3_terminal_statement "pytorch" graph2 none
    "\n\tdef forward(self, input):\n\t\tout_0 = self.layer_0(input,)\n\t\tself.layer_0_store(out_0)\n\t\t0 = nn.ReLu()(0)\n\t\tout_1 = self.layer_1(0,)\n\t\tself.layer_1_store(out_1)\n\n\treturn out_1"
    (by simp [graph2]) rfl

/-- Claim C4 is false of the code (refuting evidence): for instance 1 with
the spec's scenario-2 edge `(0, "relu")` the emitter interpolates the raw
source index — it emits the rebinding `0 = nn.ReLu()(0)` and the call
`out_1 = self.layer_1(0,)`, not the bound output name `out_0` the claim
requires — and for the edge list [internal, external] the argument list
keeps edge order (`0,input,`), so external symbols are not moved first. -/
theorem c4_raw_index_argument :
    instanceBlock "pytorch" 1 [some (0, some "relu")] =
      Except.ok "\n\t\t0 = nn.ReLu()(0)\n\t\tout_1 = self.layer_1(0,)\n\t\tself.layer_1_store(out_1)" ∧
    instanceBlock "pytorch" 1 [some (0, none), none] =
      Except.ok "\n\t\tout_1 = self.layer_1(0,input,)\n\t\tself.layer_1_store(out_1)" ∧
    "\n\t\t0 = nn.ReLu()(0)\n\t\tout_1 = self.layer_1(0,)\n\t\tself.layer_1_store(out_1)" ≠
      "\n\t\tout_0 = nn.ReLu()(out_0)\n\t\tout_1 = self.layer_1(out_0,)\n\t\tself.layer_1_store(out_1)" :=
  ⟨rfl, rfl, by decide⟩

/-- Claim C5 counterexample: on the concrete zero-instance network the
compile pass fails with the unbound-local error of line 154 (the terminal
return reads the never-assigned loop variable `i`), which is not the typed
`EmptyGraph` rejection the claim names. -/
theorem c5_counterexample :
    (Network.construct emptyNet regDense fs0).1 = Except.error PyError.unboundLocal ∧
    (Network.construct emptyNet regDense fs0).1 ≠ Except.error PyError.emptyGraph :=
  ⟨rfl, fun h => PyError.noConfusion (Except.error.inj h)⟩

/-- Claim C5 (amended): compiling a network definition with zero instances
fails with an error — in the source an unbound-loop-variable error at the
terminal return emission (or a key error when the backend has no import
entry), not a typed `EmptyGraph` error — and the artifact store is left
untouched, so no malformed return statement is ever persisted. -/
theorem c5_empty_network_fails (net : Network) (reg : Registry) (fs : FS)
    (hl : net.layers = []) (hg : net.graph = []) :
    (∃ e, (Network.construct net reg fs).1 = Except.error e) ∧
    (Network.construct net reg fs).2 = fs := by
  constructor
  · unfold Network.construct Network.generate
    rw [hl, hg]
    cases List.lookup (pyLower net.type) imports with
    | none => exact ⟨PyError.keyError, rfl⟩
    | some imp => exact ⟨PyError.unboundLocal, rfl⟩
  · exact construct_snd_eq net reg fs

/-- Witness for the amended C5 at the concrete empty pytorch network. -/
theorem c5_witness :
    (∃ e, (Network.construct emptyNet regDense fs0).1 = Except.error e) ∧
    (Network.construct emptyNet regDense fs0).2 = fs0 :=
  c5_empty_network_fails emptyNet regDense fs0 rfl rfl

/-- Claim C6 is false of the code (refuting evidence): the emitter performs
no source-index validation — the self-loop graph `[[(0, None)]]` (source
index equal to its own position) is accepted and compiled into
`out_0 = self.layer_0(0,)`, and the full pass on the self-loop network
fails only with the store hook's `NotImplementedError`, which is not an
`UnresolvedReference` rejection. -/
theorem c6_no_reference_validation :
    forwardBlock "pytorch" [[some (0, none)]] none =
      Except.ok "\n\tdef forward(self, input):\n\t\tout_0 = self.layer_0(0,)\n\t\tself.layer_0_store(out_0)\n\n\treturn out_0" ∧
    (Network.construct selfLoopNet regDense fs0).1 = Except.error PyError.notImplemented ∧
    (Network.construct selfLoopNet regDense fs0).1 ≠ Except.error PyError.unresolvedReference :=
  ⟨rfl, rfl, fun h => PyError.noConfusion (Except.error.inj h)⟩

/-- Claim C7: if the compile pass fails, the artifact store is byte-
identical to its pre-compile content.  In the source every failure occurs
during in-memory generation, before the write begins — and the write
helper itself faults on the undefined `interpreter_path` attribute before
opening a handle — so no partial or garbled program is ever persisted. -/
theorem c7_atomicity (net : Network) (reg : Registry) (fs : FS) (e : PyError)
    (_ : (Network.construct net reg fs).1 = Except.error e) :
    (Network.construct net reg fs).2 = fs :=
  construct_snd_eq net reg fs

/-- Witness for C7: the empty network's failing compile leaves a store with
a pre-existing artifact untouched. -/
theorem c7_witness : (Network.construct emptyNet regDense fsPre).2 = fsPre :=
  c7_atomicity emptyNet regDense fsPre PyError.unboundLocal rfl

/-- Claim C8 is false of the code (refuting evidence): `network_path` is a
class attribute computed once, interpolating the `UUIDField` object rather
than an instance's id, so two networks with different ids share one
artifact location; and the write helper faults on the undefined
`interpreter_path` attribute, so nothing is ever written anywhere. -/
theorem c8_shared_artifact_path :
    emptyNet.id ≠ selfLoopNet.id ∧
    Network.network_path emptyNet = Network.network_path selfLoopNet ∧
    (Network.overwriteArtifact selfLoopNet "any program text" fs0).1 =
      Except.error PyError.attributeError ∧
    (Network.overwriteArtifact selfLoopNet "any program text" fs0).2 = fs0 :=
  ⟨by decide, rfl, rfl, rfl⟩

/-- Claim C9: the compile pass is a deterministic function of the network
definition and the template registry: its outcome does not depend on the
pre-existing artifact store, and it leaves the store unchanged, so a second
compile run started from the state the first run left behind reproduces the
first run — outcome and artifact bytes — exactly. -/
theorem c9_determinism (net : Network) (reg : Registry) :
    (∀ fs1 fs2 : FS, (Network.construct net reg fs1).1 = (Network.construct net reg fs2).1) ∧
    (∀ fs : FS, Network.construct net reg ((Network.construct net reg fs).2) =
      Network.construct net reg fs) := by
  constructor
  · intro fs1 fs2
    unfold Network.construct
    cases Network.generate net reg with
    | error e => rfl
    | ok code => rfl
  · intro fs
    rw [construct_snd_eq]

/-- Claim C10 counterexample: `badFirstNet` has an instance (its second,
`dense`) whose template lookup succeeds in `regDense`, yet
`Network.construct` fails with the ValueError of the first instance's
failed lookup, not with `NotImplementedError` from the store hook. -/
theorem c10_counterexample :
    regDense "dense" = some denseLayer ∧
    badFirstNet.layers.map (fun li => li.1) = ["conv", "dense"] ∧
    regDense "conv" = none ∧
    (Network.construct badFirstNet regDense fs0).1 = Except.error PyError.valueError ∧
    (Network.construct badFirstNet regDense fs0).1 ≠ Except.error PyError.notImplemented :=
  ⟨rfl, rfl, rfl, rfl, fun h => PyError.noConfusion (Except.error.inj h)⟩

/-- Claim C10 (amended): every compile of a non-empty network fails with
some error and never touches the artifact store; and whenever the backend
has an import entry and the FIRST instance's template lookup and parameter
binding succeed, the failure is precisely the `NotImplementedError` raised
by the layer's store hook while the declaration block is built — before
any artifact write is attempted. -/
theorem c10_store_hook_aborts (net : Network) (reg : Registry) (fs : FS) :
    (net.layers ≠ [] → ∃ e, (Network.construct net reg fs).1 = Except.error e) ∧
    (Network.construct net reg fs).2 = fs ∧
    (∀ lt params rest layer decl imp,
      net.layers = (lt, params) :: rest →
      List.lookup (pyLower net.type) imports = some imp →
      reg lt = some layer →
      Layer.construct layer params (pyLower net.type) = Except.ok decl →
      (Network.construct net reg fs).1 = Except.error PyError.notImplemented) := by
  refine ⟨?_, construct_snd_eq net reg fs, ?_⟩
  · intro hne
    unfold Network.construct Network.generate
    cases himp : List.lookup (pyLower net.type) imports with
    | none => exact ⟨PyError.keyError, rfl⟩
    | some imp =>
      cases hlay : net.layers with
      | nil => exact absurd hlay hne
      | cons x rest =>
        obtain ⟨lt, params⟩ := x
        obtain ⟨e, hd⟩ := declLoop_cons_error reg (pyLower net.type) 0 none lt params rest
        rw [hd]
        exact ⟨e, rfl⟩
  · intro lt params rest layer decl imp hlay himp hreg hbind
    unfold Network.construct Network.generate
    rw [hlay, himp]
    have hd : declLoop reg (pyLower net.type) 0 none ((lt, params) :: rest) =
        Except.error PyError.notImplemented := by
      simp [declLoop, hreg, hbind, Layer.store]
    rw [hd]

/-- Witness for the amended C10: the single-instance self-loop network's
compile fails with the store hook's `NotImplementedError`. -/
theorem c10_witness :
    (Network.construct selfLoopNet regDense fs0).1 = Except.error PyError.notImplemented :=
  (c10_store_hook_aborts selfLoopNet regDense fs0).2.2 "dense" [("units", "10")] []
    denseLayer "nn.Linear(units=10,)" "import torch\nimport torch.nn as nn" rfl rfl rfl rfl

end NNLab
